import Mathlib

/-!
Verification of the flint dashboard (React/Next.js components for VM and
storage management) against its natural-language specification.

The UI components under `src/web/components/` are embedded shallowly: each
handler becomes a pure function of its inputs together with the outcomes of
the `fetch`/API calls it awaits (a resolved promise is `some`/`Except.ok`,
a rejected one is `none`/`Except.error`).  The backend orchestrator
(lifecycle controller, snapshot manager, device attachment service, storage
manager) is not part of the source tree; where a claim depends on it, the
relevant operation is modelled from the specification text and marked as
such in its doc comment.
-/

namespace Flint

/-! ## i18n provider (`src/web/components/i18n-provider.tsx`) -/

/-- A JavaScript value as far as the `t` lookup function is concerned:
`undefined`, a string, or a plain object with string keys.  The nested
`translations` record and every intermediate value of the lookup loop are
of this shape. -/
inductive JSVal where
  | undef
  | str (s : String)
  | obj (fields : List (String × JSVal))

/-- Embedding of the optional-chained property access `value?.[k]` used in
the `t` loop: reading a field of an object returns the stored value or
`undefined`; reading a field of `undefined` or of a string value yields
`undefined` (string values are treated as atomic translations here). -/
def getField (v : JSVal) (k : String) : JSVal :=
  match v with
  | JSVal.obj fields =>
    match fields.find? (fun p => p.1 == k) with
    | some p => p.2
    | none => JSVal.undef
  | _ => JSVal.undef

/-- JavaScript truthiness restricted to the values `t` can see: `undefined`
and the empty string are falsy, every other string and every object is
truthy. -/
def truthy : JSVal → Bool
  | JSVal.undef => false
  | JSVal.str s => !(s == "")
  | JSVal.obj _ => true

/-- Embedding of `key.split('.')` from the `t` function, structurally
recursive over the characters of the key. -/
def splitKeyAux : List Char → List Char → List String
  | [], acc => [String.mk acc.reverse]
  | c :: cs, acc =>
    if c = '.' then String.mk acc.reverse :: splitKeyAux cs []
    else splitKeyAux cs (c :: acc)

/-- Splitting a key on `'.'`, as `key.split('.')` does in the source. -/
def splitKey (key : String) : List String :=
  splitKeyAux key.toList []

/-- Walking a nested translations object along a path of keys, one
`value?.[k]` access per component. -/
def lookupPath (v : JSVal) : List String → JSVal
  | [] => v
  | k :: ks => lookupPath (getField v k) ks

/-- The `t` function of the i18n provider: split the key on `'.'`, fold the
property accesses over the translations object, and return `value || key`. -/
def tFun (translations : JSVal) (key : String) : JSVal :=
  let value := (splitKey key).foldl getField translations
  if truthy value then value else JSVal.str key

/-- Concrete translations object used to evaluate `tFun` on closed inputs. -/
def demoTranslations : JSVal :=
  JSVal.obj [("common", JSVal.obj [("name", JSVal.str "Name"),
                                   ("empty", JSVal.str "")])]

/-! ## Storage view (`src/web/components/storage-view.tsx`) -/

/-- A storage volume as the storage view handles it: the fields of the
object literal fabricated in `handleCreateVolume`. -/
structure Volume where
  name : String
  path : String
  capacity_b : Nat
  deriving DecidableEq

/-- Embedding of `toFixed(1)` on an exact rational value: ECMAScript picks
the integer `n` minimising `|n / 10 - x|`, the larger one on ties, which
for non-negative arguments is rounding half up. -/
def toFixed1 (q : ℚ) : String :=
  toString (⌊q * 10 + 1 / 2⌋ / 10) ++ "." ++ toString (⌊q * 10 + 1 / 2⌋ % 10)

/-- The storage view's `formatSize`: divide the byte count by 1024 three
times to get gibibytes, print terabytes when that is at least 1024 and
gibibytes otherwise, one decimal each.  Arithmetic is modelled exactly over
`ℚ`; dividing an integer below 2^53 by powers of two is exact in IEEE
doubles as well. -/
def formatSize (bytes : Nat) : String :=
  let gb : ℚ := (bytes : ℚ) / 1024 / 1024 / 1024
  if gb ≥ 1024 then
    toFixed1 (gb / 1024) ++ "TB"
  else
    toFixed1 gb ++ "GB"

/-- The volumes list produced by `handleCreateVolume`, as a function of the
previous list and the outcomes of the two awaited API calls
(`storageAPI.createVolume`, then the `storageAPI.getVolumes` refresh).
When the create call rejects, the catch block leaves the list alone; when
the refresh rejects after a successful create, the catch block appends a
locally fabricated volume entry instead of re-querying the registry. -/
def handleCreateVolume (prevVolumes : List Volume) (poolName newVolumeName : String)
    (newVolumeSize : Nat) (createResult : Option Volume)
    (refreshResult : Option (List Volume)) : List Volume :=
  match createResult with
  | none => prevVolumes
  | some _ =>
    match refreshResult with
    | some updatedVolumes => updatedVolumes
    | none =>
      prevVolumes ++ [{ name := newVolumeName,
                        path := poolName ++ "/" ++ newVolumeName,
                        capacity_b := newVolumeSize * (1024 * 1024 * 1024) }]

/-! ## VM detail view (`src/web/components/vm-detail-view.tsx`) -/

/-- The VM detail view's `formatUptime` helper: days, hours and minutes
computed by integer division from a second count. -/
def formatUptime (seconds : Nat) : String :=
  let days := seconds / 86400
  let hours := (seconds % 86400) / 3600
  let minutes := (seconds % 3600) / 60
  if days > 0 then
    toString days ++ "d " ++ toString hours ++ "h " ++ toString minutes ++ "m"
  else if hours > 0 then
    toString hours ++ "h " ++ toString minutes ++ "m"
  else
    toString minutes ++ "m"

/-- The `disabled` condition of the Create Snapshot button:
`vmData.state !== "shutoff"`. -/
def createSnapshotDisabled (state : String) : Bool :=
  state != "shutoff"

/-- The render condition of the yellow warning box in the snapshots tab:
`vmData.state !== "shutoff"`. -/
def snapshotWarningShown (state : String) : Bool :=
  state != "shutoff"

/-- The `disabled` condition of the per-snapshot revert button:
`vmData.state !== "shutoff"`. -/
def revertSnapshotDisabled (state : String) : Bool :=
  state != "shutoff"

/-- The render condition of the Stop and Reboot buttons in the header: the
true branch of `vmData.state === "Running" ? ... : ...`. -/
def showsStopRebootControls (state : String) : Bool :=
  state == "Running"

/-- The render condition of the Start button: the false branch of the same
conditional, shown in every state other than `"Running"`. -/
def showsStartControl (state : String) : Bool :=
  !(state == "Running")

/-- The options offered by the network-model `<select>` element of the Add
Interface dialog, in document order. -/
def networkModelOptions : List String :=
  ["virtio", "e1000", "rtl8139"]

/-- The initial value of the `networkModel` state: `useState("virtio")`. -/
def initialNetworkModel : String :=
  "virtio"

/-- The events that can change the `networkModel` state: the user picking
an option of the `<select>` (by index; an out-of-range index leaves the
state alone, as no such change event exists), and the reset to `"virtio"`
performed by `handleAttachNetwork` after a successful attach. -/
inductive NetworkModelEvent where
  | selectOption (index : Nat)
  | resetAfterSuccess

/-- One transition of the `networkModel` state. -/
def stepNetworkModel (current : String) : NetworkModelEvent → String
  | NetworkModelEvent.selectOption i => networkModelOptions.getD i current
  | NetworkModelEvent.resetAfterSuccess => initialNetworkModel

/-- The `networkModel` state after a sequence of events, starting from its
initial value. -/
def runNetworkModel (events : List NetworkModelEvent) : String :=
  events.foldl stepNetworkModel initialNetworkModel

/-- The VM representation the detail view keeps in `vmData`; only identity
matters for the claims about when `setVmData` runs. -/
structure VMDetailed where
  uuid : String
  deriving DecidableEq

/-- What `performVMAction` sees of the `fetch` response: `ok`, the HTTP
status, and the `error` field of the parsed JSON body.  `none` stands for a
missing field as well as for an unparseable body, both of which leave
`errorData.error` undefined. -/
structure ActionResponse where
  ok : Bool
  status : Nat
  errorField : Option String
  deriving DecidableEq

/-- JavaScript `a || b` on the `errorData.error` value: an undefined or
empty-string left operand is falsy, so the fallback is used. -/
def jsOrString (v : Option String) (fallback : String) : String :=
  match v with
  | some s => if s = "" then fallback else s
  | none => fallback

/-- The fallback message built in `performVMAction` for a non-2xx response:
the template literal around the action and HTTP status. -/
def actionFailureMessage (action : String) (status : Nat) : String :=
  "Failed to " ++ action ++ " VM (HTTP " ++ toString status ++ ")"

/-- The observable outcome of one `performVMAction` run: the `vmData` state
afterwards and the message of the error thrown into the catch block, if
any. -/
structure VMActionOutcome where
  vmData : Option VMDetailed
  thrownMessage : Option String
  deriving DecidableEq

/-- Embedding of `performVMAction`: on a non-ok response it throws
`errorData.error || fallback` without touching `vmData`; on an ok response
it re-fetches the VM and only then calls `setVmData` (a rejected re-fetch
ends in the same catch block with `vmData` unchanged). -/
def performVMAction (oldVmData : Option VMDetailed) (action : String)
    (resp : ActionResponse) (refetch : Except String VMDetailed) : VMActionOutcome :=
  if resp.ok then
    match refetch with
    | Except.ok updatedVM => { vmData := some updatedVM, thrownMessage := none }
    | Except.error msg => { vmData := oldVmData, thrownMessage := some msg }
  else
    { vmData := oldVmData,
      thrownMessage := some (jsOrString resp.errorField (actionFailureMessage action resp.status)) }

/-! ## Backend orchestrator, modelled from the spec

The dashboard calls a hypervisor-management backend whose code is not part
of this repository; only the specification describes it.  The operations
below are therefore modelled from the specification's component design
(sections 3, 4 and 7 of the spec). -/

/-- Modelled from the spec: the VM lifecycle states of the data model,
`state` being one of Running, ShutOff, Paused, Crashed. -/
inductive VMState where
  | Running
  | ShutOff
  | Paused
  | Crashed
  deriving DecidableEq

/-- Modelled from the spec: the error taxonomy of section 7. -/
inductive ErrKind where
  | ValidationError
  | PreconditionError
  | ConflictError
  | NotFoundError
  | CapacityError
  | DriverError
  deriving DecidableEq

/-- Modelled from the spec: a DiskDevice — target device name, backing
volume reference, bus type. -/
structure DiskDevice where
  targetDev : String
  volumePath : String
  bus : String
  deriving DecidableEq

/-- Modelled from the spec: a NetworkInterface — model, source network
name and MAC address. -/
structure NetworkInterface where
  model : String
  source : String
  mac : String
  deriving DecidableEq

/-- Modelled from the spec: a Snapshot — name, optional description,
creation timestamp and the captured point-in-time disk state. -/
structure Snapshot where
  name : String
  description : String
  createdAt : Nat
  captured : List DiskDevice
  deriving DecidableEq

/-- Modelled from the spec: the registry entry of a VirtualMachine, with
its lifecycle state, attached disks, attached NICs and snapshots. -/
structure VM where
  state : VMState
  disks : List DiskDevice
  nics : List NetworkInterface
  snapshots : List Snapshot
  deriving DecidableEq

/-- Modelled from the spec: snapshot `create` fails with
`PreconditionError` unless `VM.state == ShutOff`, with `ConflictError` if
the name already exists for that VM, and otherwise records the captured
state. -/
def snapshotCreate (vm : VM) (name description : String) (now : Nat) : Except ErrKind VM :=
  if vm.state ≠ VMState.ShutOff then Except.error ErrKind.PreconditionError
  else if vm.snapshots.any (fun sn => sn.name == name) then Except.error ErrKind.ConflictError
  else Except.ok { vm with
    snapshots := vm.snapshots ++ [{ name := name, description := description,
                                    createdAt := now, captured := vm.disks }] }

/-- Modelled from the spec: snapshot `revert` fails with
`PreconditionError` unless `VM.state == ShutOff`, with `NotFoundError` for
an unknown name, and on success atomically replaces the VM's disk state by
the snapshot's captured state, leaving the state ShutOff. -/
def snapshotRevert (vm : VM) (name : String) : Except ErrKind VM :=
  if vm.state ≠ VMState.ShutOff then Except.error ErrKind.PreconditionError
  else
    match vm.snapshots.find? (fun sn => sn.name == name) with
    | none => Except.error ErrKind.NotFoundError
    | some snap => Except.ok { vm with disks := snap.captured }

/-- Modelled from the spec: `start` requires state in ShutOff or Crashed
and transitions to Running. -/
def startVM (vm : VM) : Except ErrKind VM :=
  if vm.state = VMState.ShutOff ∨ vm.state = VMState.Crashed then
    Except.ok { vm with state := VMState.Running }
  else Except.error ErrKind.PreconditionError

/-- Modelled from the spec: `stop` requires state Running and transitions
to ShutOff. -/
def stopVM (vm : VM) : Except ErrKind VM :=
  if vm.state = VMState.Running then
    Except.ok { vm with state := VMState.ShutOff }
  else Except.error ErrKind.PreconditionError

/-- Modelled from the spec: `reboot` requires state Running and leaves the
VM Running. -/
def rebootVM (vm : VM) : Except ErrKind VM :=
  if vm.state = VMState.Running then Except.ok vm
  else Except.error ErrKind.PreconditionError

/-- Modelled from the spec: the NIC models `attachNetwork` accepts. -/
def validNICModels : List String :=
  ["virtio", "e1000", "rtl8139"]

/-- Modelled from the spec: `attachNetwork` accepts a model among virtio,
e1000 and rtl8139 and appends the interface (MAC assigned at attach time);
any unknown model is a `ValidationError`. -/
def attachNetwork (vm : VM) (networkName model mac : String) : Except ErrKind VM :=
  if model ∈ validNICModels then
    Except.ok { vm with nics := vm.nics ++ [{ model := model, source := networkName, mac := mac }] }
  else Except.error ErrKind.ValidationError

/-- Modelled from the spec: a StoragePool with capacity and allocation
accounting and its owned volumes. -/
structure StoragePool where
  name : String
  capacity_b : Nat
  allocation_b : Nat
  volumes : List Volume
  deriving DecidableEq

/-- One gibibyte in bytes. -/
def GiB : Nat := 1024 * 1024 * 1024

/-- Modelled from the spec: `createVolume(poolName, name, sizeGB)` fails
with `CapacityError` if `sizeGB * 1GiB` would push `allocation_b` above
`capacity_b`, and otherwise records the volume and the new allocation. -/
def createVolume (pool : StoragePool) (name : String) (sizeGB : Nat) : Except ErrKind StoragePool :=
  if pool.capacity_b < pool.allocation_b + sizeGB * GiB then
    Except.error ErrKind.CapacityError
  else Except.ok { pool with
    allocation_b := pool.allocation_b + sizeGB * GiB,
    volumes := pool.volumes ++ [{ name := name, path := pool.name ++ "/" ++ name,
                                  capacity_b := sizeGB * GiB }] }

/-! ### Concrete instances used by the witnesses -/

/-- A running VM with one disk attached. -/
def vmRunning : VM :=
  { state := VMState.Running,
    disks := [{ targetDev := "vda", volumePath := "default/root", bus := "virtio" }],
    nics := [], snapshots := [] }

/-- A stopped VM holding one snapshot whose captured disk state differs
from the current one. -/
def vmStopped : VM :=
  { state := VMState.ShutOff,
    disks := [{ targetDev := "vda", volumePath := "default/current", bus := "virtio" }],
    nics := [],
    snapshots := [{ name := "before-upgrade", description := "", createdAt := 5,
                    captured := [{ targetDev := "vda", volumePath := "default/old", bus := "virtio" }] }] }

/-- The VM obtained by reverting `vmStopped` to its snapshot. -/
def vmReverted : VM :=
  { state := VMState.ShutOff,
    disks := [{ targetDev := "vda", volumePath := "default/old", bus := "virtio" }],
    nics := [],
    snapshots := vmStopped.snapshots }

/-- A stopped VM with no devices and no snapshots. -/
def vmShut : VM :=
  { state := VMState.ShutOff, disks := [], nics := [], snapshots := [] }

/-- A paused VM with no devices and no snapshots. -/
def vmPaused : VM :=
  { state := VMState.Paused, disks := [], nics := [], snapshots := [] }

/-- The pool of the spec's capacity example: 100 GiB capacity, 95 GiB
already allocated. -/
def demoPool : StoragePool :=
  { name := "default", capacity_b := 100 * GiB, allocation_b := 95 * GiB, volumes := [] }

/-! ## Theorems -/

/-- The fold of property accesses in `tFun` walks the path like
`lookupPath` does. -/
theorem foldl_getField_eq_lookupPath (ks : List String) (v : JSVal) :
    ks.foldl getField v = lookupPath v ks := by
  induction ks generalizing v with
  | nil => rfl
  | cons k ks ih => simp [lookupPath, ih]

/-- C1: In `handleCreateVolume`, when the create call succeeds but the
volumes refresh fails, the volumes list becomes the previous list with
exactly one appended entry whose name is the entered volume name, whose
path is `poolName ++ "/" ++ volumeName` and whose `capacity_b` is the
entered size in GB times `1024 * 1024 * 1024`; no further query is made. -/
theorem c1_create_volume_optimistic_append (prev : List Volume)
    (poolName volName : String) (sizeGB : Nat) (created : Volume) :
    handleCreateVolume prev poolName volName sizeGB (some created) none =
      prev ++ [{ name := volName, path := poolName ++ "/" ++ volName,
                 capacity_b := sizeGB * (1024 * 1024 * 1024) }] ∧
    (handleCreateVolume prev poolName volName sizeGB (some created) none).length =
      prev.length + 1 := by
  refine ⟨rfl, ?_⟩
  simp [handleCreateVolume]

/-- C2: snapshot `create` on a VM whose state is not ShutOff always fails
with `PreconditionError` and never yields a mutated VM, and the UI's
Create Snapshot button is disabled and the warning box shown for every
state other than `"shutoff"`. -/
theorem c2_snapshot_create_requires_shutoff :
    (∀ (vm : VM) (name description : String) (now : Nat),
        vm.state ≠ VMState.ShutOff →
          snapshotCreate vm name description now = Except.error ErrKind.PreconditionError ∧
          ∀ vm', snapshotCreate vm name description now ≠ Except.ok vm') ∧
    (∀ state : String, state ≠ "shutoff" →
        createSnapshotDisabled state = true ∧ snapshotWarningShown state = true) := by
  constructor
  · intro vm name description now h
    refine ⟨by simp [snapshotCreate, h], ?_⟩
    intro vm' hc
    simp [snapshotCreate, h] at hc
  · intro state h
    exact ⟨by simp [createSnapshotDisabled, h], by simp [snapshotWarningShown, h]⟩

/-- C2 witness: a Running VM and the state string `"running"`. -/
theorem c2_snapshot_create_requires_shutoff_witness :
    snapshotCreate vmRunning "s1" "" 0 = Except.error ErrKind.PreconditionError ∧
    createSnapshotDisabled "running" = true ∧ snapshotWarningShown "running" = true :=
  ⟨(c2_snapshot_create_requires_shutoff.1 vmRunning "s1" "" 0 (by decide)).1,
   c2_snapshot_create_requires_shutoff.2 "running" (by decide)⟩

/-- C3: snapshot `revert` fails with `PreconditionError` whenever the VM
is not ShutOff; on success the resulting VM is exactly the old VM with its
disk state replaced by the captured state of the named snapshot, its state
still ShutOff; and the UI's revert button is disabled for every state
other than `"shutoff"`. -/
theorem c3_snapshot_revert_atomic :
    (∀ (vm : VM) (name : String), vm.state ≠ VMState.ShutOff →
        snapshotRevert vm name = Except.error ErrKind.PreconditionError) ∧
    (∀ (vm : VM) (name : String) (vm' : VM), snapshotRevert vm name = Except.ok vm' →
        vm'.state = VMState.ShutOff ∧ vm.state = VMState.ShutOff ∧
        ∃ snap, snap ∈ vm.snapshots ∧ snap.name = name ∧
          vm' = { vm with disks := snap.captured }) ∧
    (∀ state : String, state ≠ "shutoff" → revertSnapshotDisabled state = true) := by
  refine ⟨?_, ?_, ?_⟩
  · intro vm name h
    simp [snapshotRevert, h]
  · intro vm name vm' h
    by_cases hs : vm.state = VMState.ShutOff
    · rw [snapshotRevert, if_neg (by simp [hs])] at h
      cases hf : vm.snapshots.find? (fun sn => sn.name == name) with
      | none => rw [hf] at h; cases h
      | some snap =>
        rw [hf] at h
        injection h with h
        subst h
        refine ⟨hs, hs, snap, List.mem_of_find?_eq_some hf, ?_, rfl⟩
        have := List.find?_some hf
        simpa using this
    · rw [snapshotRevert, if_pos hs] at h
      cases h
  · intro state h
    simp [revertSnapshotDisabled, h]

/-- C3 witness: revert is rejected on a Running VM, succeeds on a stopped
VM replacing the disk state, and the button is disabled while running. -/
theorem c3_snapshot_revert_atomic_witness :
    snapshotRevert vmRunning "before-upgrade" = Except.error ErrKind.PreconditionError ∧
    vmReverted.state = VMState.ShutOff ∧
    revertSnapshotDisabled "running" = true :=
  ⟨c3_snapshot_revert_atomic.1 vmRunning "before-upgrade" (by decide),
   (c3_snapshot_revert_atomic.2.1 vmStopped "before-upgrade" vmReverted rfl).1,
   c3_snapshot_revert_atomic.2.2 "running" (by decide)⟩

/-- Each `networkModel` transition keeps the state among the options of
the `<select>` element. -/
theorem stepNetworkModel_mem (cur : String) (e : NetworkModelEvent)
    (hcur : cur ∈ networkModelOptions) :
    stepNetworkModel cur e ∈ networkModelOptions := by
  cases e with
  | selectOption i =>
    show networkModelOptions.getD i cur ∈ networkModelOptions
    rcases i with _ | _ | _ | i
    · exact (by decide : ("virtio" : String) ∈ networkModelOptions)
    · exact (by decide : ("e1000" : String) ∈ networkModelOptions)
    · exact (by decide : ("rtl8139" : String) ∈ networkModelOptions)
    · have h : networkModelOptions.getD (i + 3) cur = cur := by
        simp [networkModelOptions, List.getD]
      rw [h]; exact hcur
  | resetAfterSuccess =>
    exact (by decide : ("virtio" : String) ∈ networkModelOptions)

/-- Folding any event sequence from a state among the options stays among
the options. -/
theorem foldl_stepNetworkModel_mem (events : List NetworkModelEvent) :
    ∀ cur : String, cur ∈ networkModelOptions →
      events.foldl stepNetworkModel cur ∈ networkModelOptions := by
  induction events with
  | nil => intro cur h; exact h
  | cons e es ih => intro cur h; exact ih _ (stepNetworkModel_mem cur e h)

/-- C4: `attachNetwork` rejects every model outside virtio, e1000 and
rtl8139 with `ValidationError` and accepts each of those three by
appending the interface; the UI's `networkModel` state starts at
`"virtio"` and stays inside the option list of the `<select>` under every
event sequence, so every attach-network request carries one of the three
models. -/
theorem c4_attach_network_models :
    (∀ (vm : VM) (networkName model mac : String), model ∉ validNICModels →
        attachNetwork vm networkName model mac = Except.error ErrKind.ValidationError) ∧
    (∀ (vm : VM) (networkName model mac : String), model ∈ validNICModels →
        attachNetwork vm networkName model mac =
          Except.ok { vm with
            nics := vm.nics ++ [{ model := model, source := networkName, mac := mac }] }) ∧
    (∀ events : List NetworkModelEvent, runNetworkModel events ∈ validNICModels) ∧
    initialNetworkModel = "virtio" ∧ networkModelOptions = validNICModels := by
  refine ⟨?_, ?_, ?_, rfl, rfl⟩
  · intro vm networkName model mac h
    simp [attachNetwork, h]
  · intro vm networkName model mac h
    simp [attachNetwork, h]
  · intro events
    exact foldl_stepNetworkModel_mem events initialNetworkModel (by decide)

/-- C4 witness: an unknown model is rejected, and a concrete event
sequence leaves the selector on a valid model. -/
theorem c4_attach_network_models_witness :
    attachNetwork vmRunning "default" "ne2k" "52:54:00:00:00:01" =
      Except.error ErrKind.ValidationError ∧
    runNetworkModel [NetworkModelEvent.selectOption 2, NetworkModelEvent.resetAfterSuccess,
                     NetworkModelEvent.selectOption 1] ∈ validNICModels :=
  ⟨c4_attach_network_models.1 vmRunning "default" "ne2k" "52:54:00:00:00:01" (by decide),
   c4_attach_network_models.2.2.1 _⟩

/-- C5: `start` succeeds exactly on ShutOff or Crashed VMs and otherwise
fails with `PreconditionError`; `stop` and `reboot` succeed exactly on
Running VMs and otherwise fail with `PreconditionError`; the UI shows the
Stop and Reboot buttons exactly when the state string is `"Running"` and
the Start button in every other state. -/
theorem c5_lifecycle_preconditions :
    (∀ vm : VM, (∃ vm', startVM vm = Except.ok vm') ↔
        (vm.state = VMState.ShutOff ∨ vm.state = VMState.Crashed)) ∧
    (∀ vm : VM, ¬(vm.state = VMState.ShutOff ∨ vm.state = VMState.Crashed) →
        startVM vm = Except.error ErrKind.PreconditionError) ∧
    (∀ vm : VM, (∃ vm', stopVM vm = Except.ok vm') ↔ vm.state = VMState.Running) ∧
    (∀ vm : VM, vm.state ≠ VMState.Running →
        stopVM vm = Except.error ErrKind.PreconditionError) ∧
    (∀ vm : VM, (∃ vm', rebootVM vm = Except.ok vm') ↔ vm.state = VMState.Running) ∧
    (∀ vm : VM, vm.state ≠ VMState.Running →
        rebootVM vm = Except.error ErrKind.PreconditionError) ∧
    (∀ state : String, showsStopRebootControls state = true ↔ state = "Running") ∧
    (∀ state : String, showsStartControl state = true ↔ ¬ state = "Running") := by
  refine ⟨?_, ?_, ?_, ?_, ?_, ?_, ?_, ?_⟩
  · intro vm
    constructor
    · rintro ⟨vm', hv⟩
      by_contra hc
      simp [startVM, hc] at hv
    · intro h
      exact ⟨{ vm with state := VMState.Running }, by simp [startVM, h]⟩
  · intro vm h
    simp [startVM, h]
  · intro vm
    constructor
    · rintro ⟨vm', hv⟩
      by_contra hc
      simp [stopVM, hc] at hv
    · intro h
      exact ⟨{ vm with state := VMState.ShutOff }, by simp [stopVM, h]⟩
  · intro vm h
    simp [stopVM, h]
  · intro vm
    constructor
    · rintro ⟨vm', hv⟩
      by_contra hc
      simp [rebootVM, hc] at hv
    · intro h
      exact ⟨vm, by simp [rebootVM, h]⟩
  · intro vm h
    simp [rebootVM, h]
  · intro state
    simp [showsStopRebootControls]
  · intro state
    simp [showsStartControl]

/-- C5 witness: concrete VMs in each relevant state and the two UI
conditions evaluated on concrete state strings. -/
theorem c5_lifecycle_preconditions_witness :
    (∃ vm', startVM vmShut = Except.ok vm') ∧
    startVM vmPaused = Except.error ErrKind.PreconditionError ∧
    stopVM vmShut = Except.error ErrKind.PreconditionError ∧
    rebootVM vmShut = Except.error ErrKind.PreconditionError ∧
    showsStopRebootControls "Running" = true ∧
    showsStartControl "Paused" = true :=
  ⟨(c5_lifecycle_preconditions.1 vmShut).mpr (Or.inl rfl),
   c5_lifecycle_preconditions.2.1 vmPaused (by decide),
   c5_lifecycle_preconditions.2.2.2.1 vmShut (by decide),
   c5_lifecycle_preconditions.2.2.2.2.2.1 vmShut (by decide),
   (c5_lifecycle_preconditions.2.2.2.2.2.2.1 "Running").mpr rfl,
   (c5_lifecycle_preconditions.2.2.2.2.2.2.2 "Paused").mpr (by decide)⟩

/-- C6: `createVolume` fails with `CapacityError` whenever the requested
size in GiB added to the current allocation would exceed the capacity, and
that failure yields no mutated pool. -/
theorem c6_create_volume_capacity (pool : StoragePool) (name : String) (sizeGB : Nat)
    (h : pool.capacity_b < pool.allocation_b + sizeGB * GiB) :
    createVolume pool name sizeGB = Except.error ErrKind.CapacityError ∧
    ∀ pool', createVolume pool name sizeGB ≠ Except.ok pool' := by
  refine ⟨by simp [createVolume, h], ?_⟩
  intro pool' hc
  simp [createVolume, h] at hc

/-- C6 witness: the spec's example, a 10 GiB request against a pool with
100 GiB capacity and 95 GiB allocated. -/
theorem c6_create_volume_capacity_witness :
    demoPool.capacity_b < demoPool.allocation_b + 10 * GiB ∧
    createVolume demoPool "v1" 10 = Except.error ErrKind.CapacityError :=
  ⟨by decide, (c6_create_volume_capacity demoPool "v1" 10 (by decide)).1⟩

/-- C7 counterexample: for a non-2xx response whose JSON body carries the
error string `""`, `performVMAction` surfaces the HTTP-status fallback
message, not the message taken from the body. -/
theorem c7_error_body_empty_string_counterexample :
    (performVMAction none "stop" { ok := false, status := 500, errorField := some "" }
        (Except.error "unreached")).thrownMessage ≠ some "" ∧
    (performVMAction none "stop" { ok := false, status := 500, errorField := some "" }
        (Except.error "unreached")).thrownMessage =
      some (actionFailureMessage "stop" 500) :=
  ⟨by decide, rfl⟩

/-- C7 (amended): on a non-2xx response `performVMAction` leaves `vmData`
unchanged and surfaces the error string of the JSON body when that string
is non-empty, falling back to the HTTP-status message when the body is
absent or its error string is empty; `setVmData` runs only after an ok
response followed by a successful re-fetch. -/
theorem c7_error_surface_and_no_update (oldVmData : Option VMDetailed) (action : String)
    (resp : ActionResponse) (refetch : Except String VMDetailed) :
    (resp.ok = false →
      (performVMAction oldVmData action resp refetch).vmData = oldVmData ∧
      (∀ e, resp.errorField = some e → e ≠ "" →
        (performVMAction oldVmData action resp refetch).thrownMessage = some e) ∧
      ((resp.errorField = none ∨ resp.errorField = some "") →
        (performVMAction oldVmData action resp refetch).thrownMessage =
          some (actionFailureMessage action resp.status))) ∧
    (∀ updatedVM, resp.ok = true → refetch = Except.ok updatedVM →
      performVMAction oldVmData action resp refetch =
        { vmData := some updatedVM, thrownMessage := none }) := by
  constructor
  · intro hok
    refine ⟨by simp [performVMAction, hok], ?_, ?_⟩
    · intro e he hne
      simp [performVMAction, hok, he, jsOrString, hne]
    · rintro (h | h) <;> simp [performVMAction, hok, h, jsOrString]
  · intro updatedVM hok hr
    simp [performVMAction, hok, hr]

/-- C7 witness: a failing response with a non-empty body message, and a
successful action followed by a successful re-fetch. -/
theorem c7_error_surface_and_no_update_witness :
    (performVMAction none "stop" { ok := false, status := 500, errorField := some "boom" }
        (Except.error "x")).thrownMessage = some "boom" ∧
    performVMAction none "start" { ok := true, status := 200, errorField := none }
        (Except.ok { uuid := "u1" }) =
      { vmData := some { uuid := "u1" }, thrownMessage := none } :=
  ⟨((c7_error_surface_and_no_update none "stop"
        { ok := false, status := 500, errorField := some "boom" }
        (Except.error "x")).1 rfl).2.1 "boom" rfl (by decide),
   (c7_error_surface_and_no_update none "start"
        { ok := true, status := 200, errorField := none }
        (Except.ok { uuid := "u1" })).2 { uuid := "u1" } rfl rfl⟩

/-- C8: `formatSize` prints the byte count in terabytes with one decimal
and suffix `"TB"` exactly when the count divided by `2 ^ 30` is at least
1024, and otherwise prints the count divided by `2 ^ 30` with one decimal
and suffix `"GB"`. -/
theorem c8_format_size_units (b : Nat) :
    formatSize b =
      if (b : ℚ) / 2 ^ 30 ≥ 1024 then toFixed1 ((b : ℚ) / 2 ^ 40) ++ "TB"
      else toFixed1 ((b : ℚ) / 2 ^ 30) ++ "GB" := by
  have h1 : (b : ℚ) / 1024 / 1024 / 1024 = (b : ℚ) / 2 ^ 30 := by
    rw [div_div, div_div]; norm_num
  have h3 : (b : ℚ) / 2 ^ 30 / 1024 = (b : ℚ) / 2 ^ 40 := by
    rw [div_div]; norm_num
  simp only [formatSize]
  rw [h1, h3]

/-- C9: the `t` function splits the key on `'.'` and walks the nested
translations object along that path; it returns the key string itself
whenever the lookup result is missing or the stored translation is the
empty string, and returns the stored translation exactly when that value
is a non-empty string. -/
theorem c9_i18n_t_fallback (translations : JSVal) (key : String) :
    (lookupPath translations (splitKey key) = JSVal.undef →
      tFun translations key = JSVal.str key) ∧
    (lookupPath translations (splitKey key) = JSVal.str "" →
      tFun translations key = JSVal.str key) ∧
    (∀ s : String, lookupPath translations (splitKey key) = JSVal.str s → s ≠ "" →
      tFun translations key = JSVal.str s) := by
  have hw : tFun translations key =
      if truthy (lookupPath translations (splitKey key)) then
        lookupPath translations (splitKey key)
      else JSVal.str key := by
    simp only [tFun, foldl_getField_eq_lookupPath]
  refine ⟨?_, ?_, ?_⟩
  · intro h
    rw [hw, h]; simp [truthy]
  · intro h
    rw [hw, h]; simp [truthy]
  · intro s h hs
    rw [hw, h]; simp [truthy, hs]

/-- C9 witness: a non-empty translation is returned, while an empty
translation and a missing key both fall back to the key itself. -/
theorem c9_i18n_t_fallback_witness :
    tFun demoTranslations "common.name" = JSVal.str "Name" ∧
    tFun demoTranslations "common.empty" = JSVal.str "common.empty" ∧
    tFun demoTranslations "missing.key" = JSVal.str "missing.key" :=
  ⟨(c9_i18n_t_fallback demoTranslations "common.name").2.2 "Name" rfl (by decide),
   (c9_i18n_t_fallback demoTranslations "common.empty").2.1 rfl,
   (c9_i18n_t_fallback demoTranslations "missing.key").1 rfl⟩

/-- C10: `formatUptime` prints days, hours and minutes when the second
count is at least 86400, hours and minutes when it is between 3600 and
86399, and minutes alone below 3600, with each component obtained by the
floor divisions of the claim. -/
theorem c10_format_uptime_shape (s : Nat) :
    formatUptime s =
      if s ≥ 86400 then
        toString (s / 86400) ++ "d " ++ toString ((s % 86400) / 3600) ++ "h " ++
          toString ((s % 3600) / 60) ++ "m"
      else if s ≥ 3600 then
        toString ((s % 86400) / 3600) ++ "h " ++ toString ((s % 3600) / 60) ++ "m"
      else
        toString ((s % 3600) / 60) ++ "m" := by
  simp only [formatUptime]
  by_cases h1 : 86400 ≤ s
  · rw [if_pos (by omega : s / 86400 > 0), if_pos h1]
  · rw [if_neg (by omega : ¬ s / 86400 > 0), if_neg h1]
    by_cases h2 : 3600 ≤ s
    · rw [if_pos (by omega : (s % 86400) / 3600 > 0), if_pos h2]
    · rw [if_neg (by omega : ¬ (s % 86400) / 3600 > 0), if_neg h2]

end Flint
